import Mathlib

/-!
Verification of the GitHub Issue Relationships MCP server.

The definitions below are a shallow embedding of the response-shaping core
of the server (src/server.ts rich variant, src/github/client.ts) and of the
JSON-RPC test client (tests/e2e/stdio-server.test.ts).  Machine numbers are
modelled as Nat (all the quantities involved are validated non-negative
integers: zod enforces offset >= 0 and 1 <= limit <= 100 before any handler
runs), JavaScript strings as Lean String, thrown exceptions as Except, and
the absent/undefined optional values as Option.
-/

namespace GithubIssuesMcp

/-- Data model of src/github/types.ts : minimal issue representation returned
by the dependencies and sub-issues endpoints. -/
structure IssueReference where
  id : Nat
  number : Nat
  title : String
  state : String
  html_url : String
  user : Option String
  created_at : String
  updated_at : String
deriving Repr, DecidableEq

/-- Constant CHARACTER_LIMIT from src/server.ts. -/
def CHARACTER_LIMIT : Nat := 25000

/-- Constant DEFAULT_PAGE_SIZE from src/server.ts. -/
def DEFAULT_PAGE_SIZE : Nat := 20

/-- Constant MAX_PAGE_SIZE from src/server.ts. -/
def MAX_PAGE_SIZE : Nat := 100

/-- The response_format enum of src/server.ts (zod enum of markdown and json). -/
inductive ResponseFormat where
  | markdown
  | json
deriving Repr, DecidableEq

/-- Return shape of applyPagination in src/server.ts.  The optional
next_offset spread (present only when has_more) is an Option field. -/
structure PaginationEnvelope (T : Type) where
  items : List T
  total : Nat
  count : Nat
  offset : Nat
  has_more : Bool
  next_offset : Option Nat
deriving Repr, DecidableEq

/-- Embedding of applyPagination from src/server.ts.  The JavaScript
slice(offset, offset + limit) on a non-negative offset is drop-then-take. -/
def applyPagination (T : Type) (items : List T) (offset limit : Nat) :
    PaginationEnvelope T :=
  let total := items.length
  let paginated := (items.drop offset).take limit
  let has_more := decide (offset + paginated.length < total)
  { items := paginated
    total := total
    count := paginated.length
    offset := offset
    has_more := has_more
    next_offset := if offset + paginated.length < total
      then some (offset + paginated.length) else none }

lemma applyPagination_items (T : Type) (items : List T) (offset limit : Nat) :
    (applyPagination T items offset limit).items = (items.drop offset).take limit := rfl

lemma applyPagination_count (T : Type) (items : List T) (offset limit : Nat) :
    (applyPagination T items offset limit).count = min limit (items.length - offset) := by
  simp [applyPagination]

lemma applyPagination_total (T : Type) (items : List T) (offset limit : Nat) :
    (applyPagination T items offset limit).total = items.length := rfl

lemma applyPagination_offset (T : Type) (items : List T) (offset limit : Nat) :
    (applyPagination T items offset limit).offset = offset := rfl

lemma applyPagination_count_eq_length (T : Type) (items : List T) (offset limit : Nat) :
    (applyPagination T items offset limit).count
      = (applyPagination T items offset limit).items.length := by
  simp [applyPagination]

lemma applyPagination_has_more_iff (T : Type) (items : List T) (offset limit : Nat) :
    (applyPagination T items offset limit).has_more = true
      ↔ offset + (applyPagination T items offset limit).items.length < items.length := by
  simp [applyPagination]

/-- Claim C1: for every input list of size n, every offset and every limit in
the validated range, applyPagination returns a slice of length
max 0 (min limit (n - offset)) (stated over the integers, where the
subtraction can go negative), the has_more flag is true exactly when
offset + returned.length < n, and an offset at or past n yields the empty
slice rather than an error. -/
theorem paginate_slice_length_has_more (T : Type) (items : List T) (offset limit : Nat)
    (hlo : 1 ≤ limit) (hhi : limit ≤ MAX_PAGE_SIZE) :
    ((applyPagination T items offset limit).items.length : Int)
        = max 0 (min (limit : Int) ((items.length : Int) - (offset : Int))) ∧
    (applyPagination T items offset limit).items = (items.drop offset).take limit ∧
    ((applyPagination T items offset limit).has_more = true
        ↔ offset + (applyPagination T items offset limit).items.length < items.length) ∧
    (items.length ≤ offset → (applyPagination T items offset limit).items = []) := by
  refine ⟨?_, rfl, applyPagination_has_more_iff T items offset limit, ?_⟩
  · have h := applyPagination_count T items offset limit
    rw [applyPagination_count_eq_length] at h
    rw [h]
    omega
  · intro hle
    rw [applyPagination_items, List.drop_eq_nil_of_le hle, List.take_nil]

/-- Witness for C1 at a concrete list, offset and limit. -/
theorem paginate_slice_length_has_more_witness :
    ((applyPagination Nat [10, 20, 30, 40, 50] 2 2).items.length : Int)
        = max 0 (min (2 : Int) ((([10, 20, 30, 40, 50] : List Nat).length : Int) - (2 : Int))) ∧
    (applyPagination Nat [10, 20, 30, 40, 50] 2 2).items
        = (([10, 20, 30, 40, 50] : List Nat).drop 2).take 2 ∧
    ((applyPagination Nat [10, 20, 30, 40, 50] 2 2).has_more = true
        ↔ 2 + (applyPagination Nat [10, 20, 30, 40, 50] 2 2).items.length
            < ([10, 20, 30, 40, 50] : List Nat).length) ∧
    (([10, 20, 30, 40, 50] : List Nat).length ≤ 2
        → (applyPagination Nat [10, 20, 30, 40, 50] 2 2).items = []) :=
  paginate_slice_length_has_more Nat [10, 20, 30, 40, 50] 2 2 (by decide) (by decide)

lemma paginate_concat (T : Type) (items : List T) (offset limit : Nat) :
    (applyPagination T items offset limit).items
        ++ (applyPagination T items
              (offset + (applyPagination T items offset limit).count) limit).items
      = (items.drop offset).take
          ((applyPagination T items offset limit).count
            + (applyPagination T items
                (offset + (applyPagination T items offset limit).count) limit).count) := by
  set c1 := (applyPagination T items offset limit).count with hc1
  set c2 := (applyPagination T items (offset + c1) limit).count with hc2
  have h1 : c1 = min limit (items.length - offset) := applyPagination_count T items offset limit
  have h2 : c2 = min limit (items.length - (offset + c1)) :=
    applyPagination_count T items (offset + c1) limit
  rw [applyPagination_items, applyPagination_items, List.take_add]
  congr 1
  · -- the first page already takes exactly c1 elements
    have : (items.drop offset).length = items.length - offset := List.length_drop offset items
    rw [List.take_eq_take]
    omega
  · -- the second page is the immediately following slice
    rw [List.drop_drop]
    have hlen : ((items.drop (offset + c1)).length) = items.length - (offset + c1) := by
      rw [List.length_drop]
    rw [List.take_eq_take]
    have := Nat.add_comm c1 offset
    rw [this] at *
    omega

/-- Claim C2: whenever has_more is true, next_offset is present and equals
offset + returned.length, re-invoking applyPagination with next_offset as the
new offset (same limit) returns exactly the immediately following slice, and
the two returned slices concatenate to the contiguous segment of the full
list that starts at the first offset (no gap, no overlap). -/
theorem paginate_next_offset_contiguous (T : Type) (items : List T) (offset limit : Nat)
    (h : (applyPagination T items offset limit).has_more = true) :
    (applyPagination T items offset limit).next_offset
        = some (offset + (applyPagination T items offset limit).items.length) ∧
    (applyPagination T items
        (offset + (applyPagination T items offset limit).count) limit).items
      = ((items.drop offset).drop (applyPagination T items offset limit).count).take limit ∧
    (applyPagination T items offset limit).items
        ++ (applyPagination T items
              (offset + (applyPagination T items offset limit).count) limit).items
      = (items.drop offset).take
          ((applyPagination T items offset limit).count
            + (applyPagination T items
                (offset + (applyPagination T items offset limit).count) limit).count) := by
  refine ⟨?_, ?_, paginate_concat T items offset limit⟩
  · have hlt : offset + (applyPagination T items offset limit).items.length < items.length := by
      exact (applyPagination_has_more_iff T items offset limit).mp h
    simp only [applyPagination] at hlt ⊢
    rw [if_pos hlt]
  · rw [applyPagination_items, List.drop_drop]

/-- Witness for C2: a five-element list with limit 2 and offset 0 has more
results after the first page. -/
theorem paginate_next_offset_contiguous_witness :
    (applyPagination Nat [10, 20, 30, 40, 50] 0 2).next_offset
        = some (0 + (applyPagination Nat [10, 20, 30, 40, 50] 0 2).items.length) ∧
    (applyPagination Nat [10, 20, 30, 40, 50]
        (0 + (applyPagination Nat [10, 20, 30, 40, 50] 0 2).count) 2).items
      = ((([10, 20, 30, 40, 50] : List Nat).drop 0).drop
            (applyPagination Nat [10, 20, 30, 40, 50] 0 2).count).take 2 ∧
    (applyPagination Nat [10, 20, 30, 40, 50] 0 2).items
        ++ (applyPagination Nat [10, 20, 30, 40, 50]
              (0 + (applyPagination Nat [10, 20, 30, 40, 50] 0 2).count) 2).items
      = (([10, 20, 30, 40, 50] : List Nat).drop 0).take
          ((applyPagination Nat [10, 20, 30, 40, 50] 0 2).count
            + (applyPagination Nat [10, 20, 30, 40, 50]
                (0 + (applyPagination Nat [10, 20, 30, 40, 50] 0 2).count) 2).count) :=
  paginate_next_offset_contiguous Nat [10, 20, 30, 40, 50] 0 2 (by decide)

/-- Counterexample to claim C3 as stated: with the empty list, offset 1 and
limit 1 (offset is non-negative and the limit is in the validated range), the
envelope has offset + count = 1 but total = 0, so the claimed invariant
offset + returned.length <= total fails. -/
theorem paginate_offset_invariant_counterexample :
    ¬ ((applyPagination Nat [] 1 1).offset + (applyPagination Nat [] 1 1).count
        ≤ (applyPagination Nat [] 1 1).total) := by
  decide

/-- Claim C3 amended: the invariant offset + returned.length <= total holds
for every envelope produced from an offset that does not exceed the size of
the full list (when offset exceeds the total, the slice is empty and
offset + returned.length = offset, which is larger than total). -/
theorem paginate_offset_invariant (T : Type) (items : List T) (offset limit : Nat)
    (h : offset ≤ items.length) :
    (applyPagination T items offset limit).offset + (applyPagination T items offset limit).count
      ≤ (applyPagination T items offset limit).total := by
  rw [applyPagination_offset, applyPagination_count, applyPagination_total]
  omega

/-- Witness for the amended C3 at a concrete list and offset. -/
theorem paginate_offset_invariant_witness :
    (applyPagination Nat [10, 20, 30] 1 2).offset + (applyPagination Nat [10, 20, 30] 1 2).count
      ≤ (applyPagination Nat [10, 20, 30] 1 2).total :=
  paginate_offset_invariant Nat [10, 20, 30] 1 2 (by decide)

/-- Result shape of formatResponse in src/server.ts. -/
structure FormattedResponse (T : Type) where
  text : String
  structuredContent : T

/-- Embedding of formatResponse from src/server.ts.  JSON.stringify is a host
primitive with no Lean counterpart for an arbitrary type, so it is passed in
explicitly as the stringify argument; the rest follows the source line by
line: render (stringify for the json format, the supplied markdown formatter
otherwise), then truncate the text to CHARACTER_LIMIT characters and append
the fixed notice when the rendering exceeds the limit. -/
def formatResponse (T : Type) (data : T) (format : ResponseFormat)
    (markdownFormatter : T → String) (stringify : T → String) :
    FormattedResponse T :=
  let text := if format = ResponseFormat.json then stringify data
    else markdownFormatter data
  let finalText := if text.length > CHARACTER_LIMIT
    then text.take CHARACTER_LIMIT ++ "\n\n[Response truncated due to size limit]"
    else text
  { text := finalText, structuredContent := data }

/-- Claim C7: formatResponse leaves the structured payload untouched in every
case, returns the rendered text unchanged when it is within the 25,000
character budget, and returns the rendered text cut to the budget with the
fixed truncation notice appended when it exceeds the budget. -/
theorem formatResponse_display_safeguard (T : Type) (data : T) (format : ResponseFormat)
    (markdownFormatter stringify : T → String) :
    (formatResponse T data format markdownFormatter stringify).structuredContent = data ∧
    ((if format = ResponseFormat.json then stringify data
        else markdownFormatter data).length ≤ CHARACTER_LIMIT →
      (formatResponse T data format markdownFormatter stringify).text
        = (if format = ResponseFormat.json then stringify data
            else markdownFormatter data)) ∧
    (CHARACTER_LIMIT < (if format = ResponseFormat.json then stringify data
        else markdownFormatter data).length →
      (formatResponse T data format markdownFormatter stringify).text
        = (if format = ResponseFormat.json then stringify data
            else markdownFormatter data).take CHARACTER_LIMIT
          ++ "\n\n[Response truncated due to size limit]") := by
  refine ⟨rfl, ?_, ?_⟩
  · intro hle
    simp only [formatResponse]
    rw [if_neg (by omega)]
  · intro hgt
    simp only [formatResponse]
    rw [if_pos hgt]

/-- Witness for C7: a two-character markdown rendering is returned unchanged
and the structured payload is the input data. -/
theorem formatResponse_display_safeguard_witness :
    (formatResponse String "hi" ResponseFormat.markdown (fun s => s)
        (fun _ => "")).structuredContent = "hi" ∧
    (formatResponse String "hi" ResponseFormat.markdown (fun s => s) (fun _ => "")).text
      = (if ResponseFormat.markdown = ResponseFormat.json then (fun (_ : String) => "") "hi"
          else (fun (s : String) => s) "hi") :=
  ⟨(formatResponse_display_safeguard String "hi" ResponseFormat.markdown
      (fun s => s) (fun _ => "")).1,
   (formatResponse_display_safeguard String "hi" ResponseFormat.markdown
      (fun s => s) (fun _ => "")).2.1 (by decide)⟩

/-- Claim C10: the truncation applies to the json rendering as well.  When the
serialized form of the data exceeds the 25,000 character budget, the returned
text block is the serialization cut off at the budget with the truncation
notice appended, while the structured payload still carries the complete
untruncated data. -/
theorem formatResponse_json_truncated (T : Type) (data : T)
    (markdownFormatter stringify : T → String)
    (h : CHARACTER_LIMIT < (stringify data).length) :
    (formatResponse T data ResponseFormat.json markdownFormatter stringify).text
      = (stringify data).take CHARACTER_LIMIT
          ++ "\n\n[Response truncated due to size limit]" ∧
    (formatResponse T data ResponseFormat.json markdownFormatter stringify).structuredContent
      = data := by
  refine ⟨?_, rfl⟩
  simp only [formatResponse]
  simp only [if_true]
  rw [if_pos h]

/-- A string of 25,001 identical characters, longer than the display budget. -/
def longText : String := String.mk (List.replicate 25001 'x')

/-- Witness for C10 at a concrete over-budget serialization. -/
theorem formatResponse_json_truncated_witness :
    (formatResponse String longText ResponseFormat.json (fun _ => "") (fun s => s)).text
      = longText.take CHARACTER_LIMIT ++ "\n\n[Response truncated due to size limit]" ∧
    (formatResponse String longText ResponseFormat.json (fun _ => "")
        (fun s => s)).structuredContent = longText :=
  formatResponse_json_truncated String longText (fun _ => "") (fun s => s)
    (by
      have h1 : longText.length = 25001 := by
        rw [show longText.length = (List.replicate 25001 'x').length from rfl,
          List.length_replicate]
      show CHARACTER_LIMIT < longText.length
      rw [h1]
      norm_num [CHARACTER_LIMIT])

/-- Embedding of formatIssueAsMarkdown from src/server.ts. -/
def formatIssueAsMarkdown (issue : IssueReference) : String :=
  "- #" ++ toString issue.number ++ ": " ++ issue.title ++ " (" ++ issue.state
    ++ ") - " ++ issue.html_url

/-- One line of the numbered rendering of formatIssueListAsMarkdown. -/
def formatIssueNumbered (indexed : Nat × IssueReference) : String :=
  toString (indexed.fst + 1) ++ ". #" ++ toString indexed.snd.number ++ ": "
    ++ indexed.snd.title ++ " (" ++ indexed.snd.state ++ ") - " ++ indexed.snd.html_url

/-- Embedding of formatIssueListAsMarkdown from src/server.ts (map then join
with newlines; numbered lines carry index + 1). -/
def formatIssueListAsMarkdown (issues : List IssueReference) (numbered : Bool) : String :=
  if numbered then
    String.intercalate "\n" (issues.enum.map formatIssueNumbered)
  else
    String.intercalate "\n" (issues.map formatIssueAsMarkdown)

/-- Rendering of an optional next_offset inside a template literal: a missing
value prints as the string undefined in JavaScript (the source only ever
interpolates it when has_more guarantees presence). -/
def nextOffsetText : Option Nat → String
  | some n => toString n
  | none => "undefined"

/-- Tool invocation result: the primary text block, the structured payload
and the error flag (absent in the source means false). -/
structure ToolResponseOf (T : Type) where
  text : String
  structuredContent : T
  isError : Bool

/-- Structured output of the github_get_blocked_by tool (src/server.ts). -/
structure BlockedByOutput where
  blocked_by : List IssueReference
  total : Nat
  count : Nat
  offset : Nat
  has_more : Bool
  next_offset : Option Nat
  issue_number : Nat
deriving Repr, DecidableEq

/-- Markdown formatter passed to formatResponse by the github_get_blocked_by
handler. -/
def renderBlockedByMarkdown (issue_number : Nat) (data : BlockedByOutput) : String :=
  let header := "# Blocking Issues for #" ++ toString issue_number ++ "\n\n"
  let summary := "Found " ++ toString data.total ++ " blocking issue(s)"
    ++ (if data.has_more then " (showing " ++ toString data.count ++ ")" else "")
    ++ ":\n\n"
  let listing := formatIssueListAsMarkdown data.blocked_by false
  let trailer := if data.has_more then
      "\n\n*More results available. Use offset=" ++ nextOffsetText data.next_offset
        ++ " to see next page.*"
    else ""
  header ++ summary ++ listing ++ trailer

/-- Embedding of the github_get_blocked_by handler from src/server.ts, after
the remote call: allIssues is the full unpaginated list returned by
githubClient.getBlockedBy.  It paginates, builds the structured output, and
short-circuits to the fixed empty-relationship sentence when the full result
set is empty; otherwise it renders through formatResponse. -/
def getBlockedByHandler (owner repo : String) (issue_number : Nat)
    (allIssues : List IssueReference) (offset limit : Nat)
    (format : ResponseFormat) (stringify : BlockedByOutput → String) :
    ToolResponseOf BlockedByOutput :=
  let pg := applyPagination IssueReference allIssues offset limit
  let output : BlockedByOutput :=
    { blocked_by := pg.items, total := pg.total, count := pg.count, offset := pg.offset
      has_more := pg.has_more, next_offset := pg.next_offset, issue_number := issue_number }
  if allIssues.length = 0 then
    { text := "Issue #" ++ toString issue_number ++ " in " ++ owner ++ "/" ++ repo
        ++ " is not blocked by any issues."
      structuredContent := output, isError := false }
  else
    let fr := formatResponse BlockedByOutput output format
      (renderBlockedByMarkdown issue_number) stringify
    { text := fr.text, structuredContent := fr.structuredContent, isError := false }

/-- Structured output of the github_list_sub_issues tool (src/server.ts). -/
structure SubIssuesOutput where
  sub_issues : List IssueReference
  total : Nat
  count : Nat
  offset : Nat
  has_more : Bool
  next_offset : Option Nat
  parent_issue_number : Nat
deriving Repr, DecidableEq

/-- Markdown formatter passed to formatResponse by the github_list_sub_issues
handler (numbered listing, priority order). -/
def renderSubIssuesMarkdown (issue_number : Nat) (data : SubIssuesOutput) : String :=
  let header := "# Sub-Issues of #" ++ toString issue_number ++ "\n\n"
  let summary := toString data.total ++ " sub-issue(s)"
    ++ (if data.has_more then " (showing " ++ toString data.count ++ ")" else "")
    ++ " in priority order:\n\n"
  let listing := formatIssueListAsMarkdown data.sub_issues true
  let trailer := if data.has_more then
      "\n\n*More results available. Use offset=" ++ nextOffsetText data.next_offset
        ++ " to see next page.*"
    else ""
  header ++ summary ++ listing ++ trailer

/-- Embedding of the github_list_sub_issues handler from src/server.ts, after
the remote call: allSubIssues is the full list from
githubClient.listSubIssues. -/
def listSubIssuesHandler (owner repo : String) (issue_number : Nat)
    (allSubIssues : List IssueReference) (offset limit : Nat)
    (format : ResponseFormat) (stringify : SubIssuesOutput → String) :
    ToolResponseOf SubIssuesOutput :=
  let pg := applyPagination IssueReference allSubIssues offset limit
  let output : SubIssuesOutput :=
    { sub_issues := pg.items, total := pg.total, count := pg.count, offset := pg.offset
      has_more := pg.has_more, next_offset := pg.next_offset
      parent_issue_number := issue_number }
  if allSubIssues.length = 0 then
    { text := "Issue #" ++ toString issue_number ++ " in " ++ owner ++ "/" ++ repo
        ++ " has no sub-issues."
      structuredContent := output, isError := false }
  else
    let fr := formatResponse SubIssuesOutput output format
      (renderSubIssuesMarkdown issue_number) stringify
    { text := fr.text, structuredContent := fr.structuredContent, isError := false }

/-- Claim C6: when the full unpaginated result set is empty, the list tools
answer with the fixed one-sentence empty-relationship text (whatever the
requested offset, limit and response format), never the rendered heading and
listing form, and the structured envelope carries total = 0 and
has_more = false.  Stated for the two cited handlers, github_get_blocked_by
and github_list_sub_issues. -/
theorem empty_result_fixed_sentence (owner repo : String) (n offset limit : Nat)
    (format : ResponseFormat) (sb : BlockedByOutput → String)
    (ss : SubIssuesOutput → String) :
    (getBlockedByHandler owner repo n [] offset limit format sb).text
        = "Issue #" ++ toString n ++ " in " ++ owner ++ "/" ++ repo
            ++ " is not blocked by any issues." ∧
    (getBlockedByHandler owner repo n [] offset limit format sb).structuredContent.total = 0 ∧
    (getBlockedByHandler owner repo n [] offset limit format sb).structuredContent.has_more
        = false ∧
    (getBlockedByHandler owner repo n [] offset limit format sb).isError = false ∧
    (listSubIssuesHandler owner repo n [] offset limit format ss).text
        = "Issue #" ++ toString n ++ " in " ++ owner ++ "/" ++ repo
            ++ " has no sub-issues." ∧
    (listSubIssuesHandler owner repo n [] offset limit format ss).structuredContent.total = 0 ∧
    (listSubIssuesHandler owner repo n [] offset limit format ss).structuredContent.has_more
        = false ∧
    (listSubIssuesHandler owner repo n [] offset limit format ss).isError = false := by
  refine ⟨?_, ?_, ?_, ?_, ?_, ?_, ?_, ?_⟩ <;>
    simp [getBlockedByHandler, listSubIssuesHandler, applyPagination]

/-- Model of a value thrown by the HTTP layer underneath
src/github/client.ts: either an Error object carrying a numeric status
property, or any other thrown value. -/
inductive RemoteError where
  | http (status : Nat) (message : String)
  | other (message : String)
deriving Repr, DecidableEq

/-- The catch condition of getParentIssue in src/github/client.ts: the thrown
value is an Error, has a status property, and that status is 404. -/
def isNotFoundStatus : RemoteError → Bool
  | .http 404 _ => true
  | _ => false

/-- Embedding of GitHubClient.getParentIssue from src/github/client.ts: the
remote argument is the outcome of the underlying request.  A 404 from the
remote call is translated to the absent parent (none); every other failure is
rethrown unchanged. -/
def getParentIssue (remote : Except RemoteError IssueReference) :
    Except RemoteError (Option IssueReference) :=
  match remote with
  | .ok issue => .ok (some issue)
  | .error e => if isNotFoundStatus e then .ok none else .error e

/-- Structured output of the github_get_parent_issue tool (src/server.ts). -/
structure GetParentOutput where
  parent : Option IssueReference
  issue_number : Nat
  has_parent : Bool
deriving Repr, DecidableEq

/-- Markdown formatter passed to formatResponse by the github_get_parent_issue
handler.  The none branch is unreachable: the handler only calls the
formatter after its parent null-check. -/
def renderParentMarkdown (issue_number : Nat) (data : GetParentOutput) : String :=
  match data.parent with
  | some p =>
      "# Parent of Issue #" ++ toString issue_number ++ "\n\n"
        ++ "Issue #" ++ toString issue_number ++ " is a sub-issue of:\n\n"
        ++ "- #" ++ toString p.number ++ ": " ++ p.title ++ " (" ++ p.state ++ ")\n"
        ++ "  URL: " ++ p.html_url
  | none => ""

/-- Embedding of the github_get_parent_issue handler from src/server.ts.  The
handler awaits getParentIssue; a thrown error propagates out of the handler
(the Except error branch), an absent parent produces the fixed no-parent
sentence with has_parent = false, and a present parent is rendered through
formatResponse. -/
def getParentIssueHandler (owner repo : String) (issue_number : Nat)
    (format : ResponseFormat) (stringify : GetParentOutput → String)
    (remote : Except RemoteError IssueReference) :
    Except RemoteError (ToolResponseOf GetParentOutput) :=
  match getParentIssue remote with
  | .error e => .error e
  | .ok parent =>
      let output : GetParentOutput :=
        { parent := parent, issue_number := issue_number, has_parent := parent.isSome }
      match parent with
      | none =>
          .ok { text := "Issue #" ++ toString issue_number ++ " in " ++ owner ++ "/"
                  ++ repo ++ " has no parent issue."
                structuredContent := output, isError := false }
      | some _ =>
          let fr := formatResponse GetParentOutput output format
            (renderParentMarkdown issue_number) stringify
          .ok { text := fr.text, structuredContent := fr.structuredContent
                isError := false }

/-- Claim C4: when the remote get-parent call fails with status 404,
getParentIssue returns the absent marker instead of an error, and the
github_get_parent_issue tool returns a non-error response whose structured
payload has parent = none and has_parent = false; any remote failure that is
not a 404 propagates unchanged out of both the client and the handler. -/
theorem getParent_404_normalized (owner repo : String) (n : Nat)
    (format : ResponseFormat) (stringify : GetParentOutput → String) (msg : String)
    (e : RemoteError) (he : isNotFoundStatus e = false) :
    getParentIssue (.error (.http 404 msg)) = .ok none ∧
    getParentIssueHandler owner repo n format stringify (.error (.http 404 msg))
      = .ok { text := "Issue #" ++ toString n ++ " in " ++ owner ++ "/" ++ repo
                ++ " has no parent issue."
              structuredContent :=
                { parent := none, issue_number := n, has_parent := false }
              isError := false } ∧
    getParentIssue (.error e) = .error e ∧
    getParentIssueHandler owner repo n format stringify (.error e) = .error e := by
  refine ⟨rfl, rfl, ?_, ?_⟩
  · simp [getParentIssue, he]
  · simp [getParentIssueHandler, getParentIssue, he]

/-- Witness for C4: a 403 Forbidden remote failure is not normalized, while
the 404 is; instantiated at a concrete owner, repo and issue number. -/
theorem getParent_404_normalized_witness :
    getParentIssue (.error (.http 404 "Not Found")) = .ok none ∧
    getParentIssueHandler "octocat" "hello" 7 ResponseFormat.markdown (fun _ => "")
        (.error (.http 404 "Not Found"))
      = .ok { text := "Issue #" ++ toString 7 ++ " in " ++ "octocat" ++ "/" ++ "hello"
                ++ " has no parent issue."
              structuredContent :=
                { parent := none, issue_number := 7, has_parent := false }
              isError := false } ∧
    getParentIssue (.error (.http 403 "Forbidden")) = .error (.http 403 "Forbidden") ∧
    getParentIssueHandler "octocat" "hello" 7 ResponseFormat.markdown (fun _ => "")
        (.error (.http 403 "Forbidden"))
      = .error (.http 403 "Forbidden") :=
  getParent_404_normalized "octocat" "hello" 7 ResponseFormat.markdown (fun _ => "")
    "Not Found" (.http 403 "Forbidden") (by decide)

/-- Outcome of the github_reprioritize_sub_issue handler before any remote
work: either an immediate tool response (text plus error flag, the Relation
Client untouched), or the invocation of
githubClient.reprioritizeSubIssue with the given arguments. -/
inductive ReprioritizeAction where
  | respond (text : String) (isError : Bool)
  | callRemote (owner repo : String) (parentIssueNumber subIssueId : Nat)
      (afterId beforeId : Option Nat)
deriving Repr, DecidableEq

/-- Embedding of the github_reprioritize_sub_issue handler from src/server.ts:
two validation gates (neither positional argument, both positional arguments)
return a tool error before the client is invoked; otherwise the handler
proceeds to the remote call. -/
def reprioritizeHandler (owner repo : String) (issue_number sub_issue_id : Nat)
    (after_id before_id : Option Nat) : ReprioritizeAction :=
  if after_id.isNone && before_id.isNone then
    .respond
      "Error: Must specify either after_id or before_id to position the sub-issue." true
  else if after_id.isSome && before_id.isSome then
    .respond "Error: Specify only one of after_id or before_id, not both." true
  else
    .callRemote owner repo issue_number sub_issue_id after_id before_id

/-- Claim C5: with after_id and before_id both absent, or both present, the
reprioritize handler answers with the error flag set and a descriptive text
and never reaches the Relation Client (the outcome is a respond, not a
callRemote); with exactly one of the two supplied it proceeds to the remote
call. -/
theorem reprioritize_exactly_one (owner repo : String) (n sid : Nat)
    (after_id before_id : Option Nat) :
    (after_id = none ∧ before_id = none →
      reprioritizeHandler owner repo n sid after_id before_id
        = .respond
            "Error: Must specify either after_id or before_id to position the sub-issue."
            true) ∧
    (after_id.isSome = true ∧ before_id.isSome = true →
      reprioritizeHandler owner repo n sid after_id before_id
        = .respond "Error: Specify only one of after_id or before_id, not both." true) ∧
    (after_id.isSome ≠ before_id.isSome →
      reprioritizeHandler owner repo n sid after_id before_id
        = .callRemote owner repo n sid after_id before_id) := by
  cases after_id <;> cases before_id <;>
    simp [reprioritizeHandler]

/-- Witness for C5: with after_id supplied and before_id absent, the handler
proceeds to the remote call. -/
theorem reprioritize_exactly_one_witness :
    reprioritizeHandler "octocat" "hello" 50 12345 (some 111) none
      = .callRemote "octocat" "hello" 50 12345 (some 111) none :=
  (reprioritize_exactly_one "octocat" "hello" 50 12345 (some 111) none).2.2 (by decide)

/-- The fixed per-request timeout of the JSON-RPC client
(tests/e2e/stdio-server.test.ts, sendRequest: setTimeout of 10000 ms). -/
def REQUEST_TIMEOUT_MS : Nat := 10000

/-- Settling of a waiter in the JSON-RPC client: a pending promise is
resolved with a result, rejected with a JSON-RPC error, or rejected with the
request-timeout error. -/
inductive WaiterEvent where
  | resolved (id : Nat)
  | rejectedRpc (id : Nat) (message : String)
  | rejectedTimeout (id : Nat)
deriving Repr, DecidableEq

/-- State of the StdioMcpClient of tests/e2e/stdio-server.test.ts: the
monotone message counter, the pending-request table (a map keyed by request
ID, modelled by its key set since each key holds exactly one waiter), the set
of armed timeout timers (sendRequest arms one per request and never clears
it), the log of settled waiters (most recent first), and the connected
flag. -/
structure SessionState where
  messageId : Nat
  pending : Finset Nat
  timers : Finset Nat
  events : List WaiterEvent
  isConnected : Bool
deriving DecidableEq

/-- The freshly constructed client: counter at zero, nothing pending. -/
def initialState : SessionState :=
  { messageId := 0, pending := ∅, timers := ∅, events := [], isConnected := false }

/-- Embedding of StdioMcpClient.sendRequest: increment the counter, register
the waiter under the new ID, arm its 10-second timer, and return the ID. -/
def sendRequest (s : SessionState) : SessionState × Nat :=
  let id := s.messageId + 1
  ({ s with messageId := id
            pending := insert id s.pending
            timers := insert id s.timers }, id)

/-- Embedding of the setTimeout callback armed by sendRequest: when the timer
for the given ID fires, the entry is deleted and the waiter rejected with the
timeout error, but only if the ID is still registered; either way the timer
is spent. -/
def fireTimeout (s : SessionState) (id : Nat) : SessionState :=
  if id ∈ s.pending then
    { s with pending := s.pending.erase id
             timers := s.timers.erase id
             events := WaiterEvent.rejectedTimeout id :: s.events }
  else
    { s with timers := s.timers.erase id }

/-- Embedding of StdioMcpClient.handleMessage on a parsed response line
carrying an ID: when the ID is registered the entry is deleted and the waiter
settled (rejected on a JSON-RPC error member, resolved otherwise); an
unregistered ID leaves the state untouched. -/
def handleResponse (s : SessionState) (id : Nat) (isRpcErr : Bool) (msg : String) :
    SessionState :=
  if id ∈ s.pending then
    { s with pending := s.pending.erase id
             events := (if isRpcErr then WaiterEvent.rejectedRpc id msg
                        else WaiterEvent.resolved id) :: s.events }
  else s

/-- Embedding of StdioMcpClient.close: closing the readline interface and
clearing the connected flag.  The pending table is not touched and the armed
timers keep running. -/
def closeSession (s : SessionState) : SessionState :=
  { s with isConnected := false }

/-- States of the client reachable from construction through its four
operations. -/
inductive Reachable : SessionState → Prop where
  | init : Reachable initialState
  | send (s : SessionState) : Reachable s → Reachable (sendRequest s).1
  | response (s : SessionState) (id : Nat) (isRpcErr : Bool) (msg : String) :
      Reachable s → Reachable (handleResponse s id isRpcErr msg)
  | timeout (s : SessionState) (id : Nat) : Reachable s → Reachable (fireTimeout s id)
  | closeStep (s : SessionState) : Reachable s → Reachable (closeSession s)

lemma reachable_pending_subset_timers (s : SessionState) (h : Reachable s) :
    s.pending ⊆ s.timers := by
  induction h with
  | init => simp [initialState]
  | send s hs ih =>
      simp only [sendRequest]
      exact Finset.insert_subset_insert _ ih
  | response s id isRpcErr msg hs ih =>
      simp only [handleResponse]
      split
      · exact fun a ha => ih (Finset.mem_of_mem_erase ha)
      · exact ih
  | timeout s id hs ih =>
      simp only [fireTimeout]
      split
      · exact Finset.erase_subset_erase _ ih
      · rename_i hnot
        exact Finset.subset_erase.mpr ⟨ih, hnot⟩
  | closeStep s hs ih => exact ih

/-- Claim C8: if the timer of a pending request fires, the entry for that ID
is removed from the pending table and its waiter is rejected with the timeout
error; a response for that ID arriving afterwards is silently ignored (it
changes nothing, the ID being no longer registered).  The timeout is the
fixed 10 seconds. -/
theorem request_timeout_then_late_response_ignored (s : SessionState) (id : Nat)
    (h : id ∈ s.pending) :
    REQUEST_TIMEOUT_MS = 10000 ∧
    (fireTimeout s id).pending = s.pending.erase id ∧
    id ∉ (fireTimeout s id).pending ∧
    (fireTimeout s id).events = WaiterEvent.rejectedTimeout id :: s.events ∧
    ∀ (isRpcErr : Bool) (msg : String),
      handleResponse (fireTimeout s id) id isRpcErr msg = fireTimeout s id := by
  have hp : (fireTimeout s id).pending = s.pending.erase id := by
    simp [fireTimeout, h]
  have hni : id ∉ (fireTimeout s id).pending := by
    rw [hp]; exact Finset.not_mem_erase id s.pending
  refine ⟨rfl, hp, hni, ?_, ?_⟩
  · simp [fireTimeout, h]
  · intro isRpcErr msg
    simp [handleResponse, hni]

/-- Witness for C8: one request sent from the fresh client, its timer fires,
a late response for the same ID is ignored. -/
theorem request_timeout_then_late_response_ignored_witness :
    REQUEST_TIMEOUT_MS = 10000 ∧
    (fireTimeout (sendRequest initialState).1 1).pending
        = (sendRequest initialState).1.pending.erase 1 ∧
    1 ∉ (fireTimeout (sendRequest initialState).1 1).pending ∧
    (fireTimeout (sendRequest initialState).1 1).events
        = WaiterEvent.rejectedTimeout 1 :: (sendRequest initialState).1.events ∧
    ∀ (isRpcErr : Bool) (msg : String),
      handleResponse (fireTimeout (sendRequest initialState).1 1) 1 isRpcErr msg
        = fireTimeout (sendRequest initialState).1 1 :=
  request_timeout_then_late_response_ignored (sendRequest initialState).1 1
    (by simp [sendRequest, initialState])

/-- Claim C9: closing the session drops no pending request: the pending table
is preserved by close, the 10-second timer of every pending request is still
armed afterwards, and when that timer fires the waiter is rejected with the
timeout error and deregistered, so every still-pending waiter ends rejected
rather than silently dropped. -/
theorem close_rejects_pending (s : SessionState) (id : Nat)
    (hr : Reachable s) (h : id ∈ s.pending) :
    (closeSession s).pending = s.pending ∧
    id ∈ (closeSession s).timers ∧
    id ∉ (fireTimeout (closeSession s) id).pending ∧
    (fireTimeout (closeSession s) id).events
        = WaiterEvent.rejectedTimeout id :: s.events := by
  have hsub := reachable_pending_subset_timers s hr
  have hpc : (closeSession s).pending = s.pending := rfl
  refine ⟨hpc, hsub h, ?_, ?_⟩
  · have hmem : id ∈ (closeSession s).pending := by rw [hpc]; exact h
    simp [fireTimeout, hmem]
  · have hmem : id ∈ (closeSession s).pending := by rw [hpc]; exact h
    simp [fireTimeout, hmem, closeSession]
    rw [if_pos h]

/-- Witness for C9: the client with one request in flight is closed; the
request is still pending and its timer still armed, and the timer firing
rejects it with the timeout error. -/
theorem close_rejects_pending_witness :
    (closeSession (sendRequest initialState).1).pending
        = (sendRequest initialState).1.pending ∧
    1 ∈ (closeSession (sendRequest initialState).1).timers ∧
    1 ∉ (fireTimeout (closeSession (sendRequest initialState).1) 1).pending ∧
    (fireTimeout (closeSession (sendRequest initialState).1) 1).events
        = WaiterEvent.rejectedTimeout 1 :: (sendRequest initialState).1.events :=
  close_rejects_pending (sendRequest initialState).1 1
    (Reachable.send initialState Reachable.init)
    (by simp [sendRequest, initialState])

end GithubIssuesMcp
